import Mathlib

/-
Verification of the booking-engine core of the airline ticket management
system (`airline_app.py`, class `DatabaseManager`).

The SQLite store is embedded as a pair of lists kept in rowid (insertion)
order, together with the AUTOINCREMENT counters and the connection's
`last_insert_rowid()` register.  SQLite INTEGER columns are Lean `Int`
(Python ints are unbounded), the REAL `price`/`total_price` columns are
modelled as `ℚ`, and TEXT columns are `String`.  Each method of
`DatabaseManager` becomes a pure function from the store (plus its
arguments) to the updated store and the method's `(ok, message)` result,
mirroring the SQL statements it issues.
-/

namespace Airline

/-- ASCII-only lower casing, the case folding SQLite applies to the
LIKE operator (SQLite folds only A-Z). -/
def asciiLower (c : Char) : Char :=
  if 'A' ≤ c ∧ c ≤ 'Z' then Char.ofNat (c.toNat + 32) else c

/-- SQLite LIKE pattern matching over explicit character lists: a percent
in the pattern matches any run of characters (that is, the rest of the
pattern matches at some suffix of the text), an underscore matches exactly
one character, and every other pattern character compares with the text
ASCII-case-insensitively.  This is the semantics of the
`departure LIKE ?` / `destination LIKE ?` conditions built by
`DatabaseManager.search_flights`. -/
def likeMatch : List Char → List Char → Bool
  | [], s => s.isEmpty
  | a :: p, s =>
    if a = '%' then s.tails.any (fun t => likeMatch p t)
    else
      match s with
      | [] => false
      | c :: s' =>
        if a = '_' then likeMatch p s'
        else (asciiLower a == asciiLower c) && likeMatch p s'

/-- Case-insensitive match of a pattern against the head of a text,
comparing character by character through `asciiLower`. -/
def headMatchCI : List Char → List Char → Bool
  | [], _ => true
  | _ :: _, [] => false
  | a :: p, c :: s => (asciiLower a == asciiLower c) && headMatchCI p s

/-- Case-insensitive substring test: the pattern matches at some position of
the text. -/
def subMatchCI (p : List Char) : List Char → Bool
  | [] => p.isEmpty
  | c :: s => headMatchCI p (c :: s) || subMatchCI p s

/-- Case-insensitive substring containment between strings.  This is the
specification's reading of the `departure`/`destination` search filters
("match as case-insensitive substring"); it is compared against the LIKE
semantics the source actually uses. -/
def ciContains (hay pat : String) : Bool := subMatchCI pat.data hay.data

/-- A row of the `flights` table. -/
structure Flight where
  flight_id : Nat
  departure : String
  destination : String
  flight_date : String
  flight_time : String
  price : ℚ
  seats_available : Int
deriving DecidableEq

/-- A row of the `bookings` table. -/
structure Booking where
  booking_id : Nat
  flight_id : Nat
  passenger_name : String
  num_seats : Int
  total_price : ℚ
  booking_date : String
deriving DecidableEq

/-- The SQLite database behind a `DatabaseManager`: the two tables in rowid
(insertion) order, the AUTOINCREMENT counters for their primary keys, the
connection's `last_insert_rowid()` register, and the value of
`CURRENT_DATE` used as the default of `bookings.booking_date`. -/
structure DB where
  flights : List Flight
  bookings : List Booking
  next_flight_id : Nat
  next_booking_id : Nat
  last_insert_rowid : Nat
  current_date : String
deriving DecidableEq

/-- The row produced by `SELECT ... FROM flights WHERE flight_id = ?` and
`fetchone()`: the first flight with the given id, if any. -/
def findFlight (db : DB) (fid : Nat) : Option Flight :=
  db.flights.find? (fun f => f.flight_id == fid)

/-- The row produced by `SELECT ... FROM bookings WHERE booking_id = ?` and
`fetchone()`: the first booking with the given id, if any. -/
def findBooking (db : DB) (bid : Nat) : Option Booking :=
  db.bookings.find? (fun b => b.booking_id == bid)

/-- The effect of `UPDATE flights SET seats_available = ? WHERE
flight_id = ?` with an explicitly computed new value, as issued by
`book_flight`. -/
def seatSet (l : List Flight) (fid : Nat) (v : Int) : List Flight :=
  l.map (fun g => if g.flight_id == fid then { g with seats_available := v } else g)

/-- The effect of `UPDATE flights SET seats_available = seats_available + ?
WHERE flight_id = ?`, as issued by `cancel_booking`. -/
def seatCredit (l : List Flight) (fid : Nat) (n : Int) : List Flight :=
  l.map (fun g =>
    if g.flight_id == fid then { g with seats_available := g.seats_available + n } else g)

/-- `DatabaseManager.add_flight`: INSERT a new flight row; AUTOINCREMENT
assigns the next flight id. -/
def add_flight (db : DB) (departure destination date time : String)
    (price : ℚ) (seats : Int) : DB :=
  { db with
    flights := db.flights ++
      [{ flight_id := db.next_flight_id, departure := departure,
         destination := destination, flight_date := date, flight_time := time,
         price := price, seats_available := seats }],
    next_flight_id := db.next_flight_id + 1,
    last_insert_rowid := db.next_flight_id }

/-- The WHERE clause assembled by `search_flights`: a `LIKE '%...%'`
condition is added for each of `departure`/`destination` only when the
argument is a non-empty string (Python truthiness of `if departure:`), and
an exact `flight_date = ?` condition only when `date` is non-empty. -/
def flightMatches (departure destination date : String) (f : Flight) : Bool :=
  (departure.isEmpty || likeMatch ('%' :: (departure.data ++ ['%'])) f.departure.data) &&
  (destination.isEmpty || likeMatch ('%' :: (destination.data ++ ['%'])) f.destination.data) &&
  (date.isEmpty || f.flight_date == date)

/-- `DatabaseManager.search_flights`: the flights satisfying the assembled
WHERE clause, in table (insertion) order — the query has no ORDER BY. -/
def search_flights (db : DB) (departure destination date : String) : List Flight :=
  db.flights.filter (flightMatches departure destination date)

/-- The booking row inserted by a successful `book_flight`: AUTOINCREMENT
id, the caller's arguments, `total_price = price * num_seats` computed from
the flight row read at the start of the call, and the CURRENT_DATE
default. -/
def newBooking (db : DB) (fid : Nat) (name : String) (n : Int) (f : Flight) : Booking :=
  { booking_id := db.next_booking_id, flight_id := fid, passenger_name := name,
    num_seats := n, total_price := f.price * (n : ℚ), booking_date := db.current_date }

/-- The store after a successful `book_flight`: seats of the flight set to
the value `seats_available - num_seats` computed from the row that was
read, the new booking appended, and the rowid registers advanced. -/
def bookApply (db : DB) (fid : Nat) (name : String) (n : Int) (f : Flight) : DB :=
  { db with
    flights := seatSet db.flights fid (f.seats_available - n),
    bookings := db.bookings ++ [newBooking db fid name n f],
    next_booking_id := db.next_booking_id + 1,
    last_insert_rowid := db.next_booking_id }

/-- `DatabaseManager.book_flight`: read the flight row; fail if absent;
fail carrying the remaining seat count if `num_seats > seats_available`;
otherwise update the seats, insert the booking, and report success.  The
returned pair mirrors the method's `(bool, message)` result. -/
def book_flight (db : DB) (flight_id : Nat) (passenger_name : String)
    (num_seats : Int) : DB × Bool × String :=
  match findFlight db flight_id with
  | none => (db, false, "Flight not found.")
  | some f =>
    if num_seats > f.seats_available then
      (db, false,
        "Not enough seats available. Only " ++ toString f.seats_available ++ " seats left.")
    else
      (bookApply db flight_id passenger_name num_seats f, true, "Flight booked successfully!")

/-- The joined row returned by `DatabaseManager.get_booking`. -/
structure BookingView where
  booking_id : Nat
  departure : String
  destination : String
  flight_date : String
  flight_time : String
  passenger_name : String
  num_seats : Int
  total_price : ℚ
  price_per_seat : ℚ
deriving DecidableEq

/-- `DatabaseManager.get_booking`: the booking joined with its flight row
(`JOIN flights ON b.flight_id = f.flight_id`); the join yields no row when
either side is absent. -/
def get_booking (db : DB) (booking_id : Nat) : Option BookingView :=
  match findBooking db booking_id with
  | none => none
  | some b =>
    match findFlight db b.flight_id with
    | none => none
    | some f =>
      some
        { booking_id := b.booking_id, departure := f.departure,
          destination := f.destination, flight_date := f.flight_date,
          flight_time := f.flight_time, passenger_name := b.passenger_name,
          num_seats := b.num_seats, total_price := b.total_price,
          price_per_seat := f.price }

/-- The store after a successful `cancel_booking`: the referenced flight's
seats credited in place (a no-op when no flight row matches), and every
booking row with the given id deleted. -/
def cancelApply (db : DB) (bid : Nat) (b : Booking) : DB :=
  { db with
    flights := seatCredit db.flights b.flight_id b.num_seats,
    bookings := db.bookings.filter (fun x => x.booking_id != bid) }

/-- `DatabaseManager.cancel_booking`: read the booking row; fail if absent;
otherwise credit the flight's seats, delete the booking, and report
success.  The returned pair mirrors the method's `(bool, message)`
result. -/
def cancel_booking (db : DB) (booking_id : Nat) : DB × Bool × String :=
  match findBooking db booking_id with
  | none => (db, false, "Booking not found.")
  | some b => (cancelApply db booking_id b, true, "Booking cancelled successfully!")

/-- Modelled from the spec: "a subsequent price change on the flight".  No
price-update operation exists in the source; at the storage level a price
change is an UPDATE of the flight row's `price` column, which touches the
`flights` table only. -/
def set_price (db : DB) (flight_id : Nat) (p : ℚ) : DB :=
  { db with flights := db.flights.map (fun g =>
      if g.flight_id == flight_id then { g with price := p } else g) }

/-- One engine operation, for reasoning about sequences of calls. -/
inductive Op where
  | book (flight_id : Nat) (passenger_name : String) (num_seats : Int)
  | cancel (booking_id : Nat)
deriving DecidableEq

/-- Apply one operation to the store, discarding the reported message. -/
def applyOp (db : DB) : Op → DB
  | Op.book fid name n => (book_flight db fid name n).1
  | Op.cancel bid => (cancel_booking db bid).1

/-- Apply a sequence of operations from left to right. -/
def applyOps (db : DB) : List Op → DB
  | [] => db
  | op :: ops => applyOps (applyOp db op) ops

/-- Total seats held by the bookings of one flight: the sum of `num_seats`
over the booking rows referencing it. -/
def bookedSeats (l : List Booking) (fid : Nat) : Int :=
  (l.map (fun b => if b.flight_id == fid then b.num_seats else 0)).sum

/-- The five dummy flights inserted on first run by
`DatabaseManager._add_dummy_data_if_empty`, receiving rowids 1 to 5. -/
def seedDB : DB :=
  { flights := [
      { flight_id := 1, departure := "New York", destination := "London",
        flight_date := "2025-07-01", flight_time := "08:00", price := 750,
        seats_available := 150 },
      { flight_id := 2, departure := "London", destination := "Paris",
        flight_date := "2025-07-02", flight_time := "10:30", price := 200,
        seats_available := 80 },
      { flight_id := 3, departure := "Paris", destination := "Rome",
        flight_date := "2025-07-03", flight_time := "14:00", price := 150,
        seats_available := 100 },
      { flight_id := 4, departure := "New York", destination := "Tokyo",
        flight_date := "2025-07-10", flight_time := "18:00", price := 1200,
        seats_available := 200 },
      { flight_id := 5, departure := "Tokyo", destination := "Sydney",
        flight_date := "2025-07-12", flight_time := "22:00", price := 900,
        seats_available := 120 }],
    bookings := [], next_flight_id := 6, next_booking_id := 1,
    last_insert_rowid := 5, current_date := "2025-07-15" }

/-- The first seed flight, New York to London with 150 seats at 750.00. -/
def seedFlight1 : Flight :=
  { flight_id := 1, departure := "New York", destination := "London",
    flight_date := "2025-07-01", flight_time := "08:00", price := 750,
    seats_available := 150 }

/-- Every booking row's id is below the AUTOINCREMENT counter of the
`bookings` table, as SQLite maintains. -/
def idsBounded (db : DB) : Prop :=
  ∀ b ∈ db.bookings, b.booking_id < db.next_booking_id

/-- The booking ids are pairwise distinct, as the PRIMARY KEY guarantees. -/
def idsNodup (db : DB) : Prop :=
  (db.bookings.map (fun b => b.booking_id)).Nodup

/-- The conserved-sum invariant for one flight: the flight row is present
and its free seats plus the seats held by its bookings equal `total`. -/
def conservedAt (db : DB) (fid : Nat) (total : Int) : Prop :=
  ∃ f, findFlight db fid = some f ∧
    f.seats_available + bookedSeats db.bookings fid = total

/-- Every flight row holds a non-negative seat count and every booking row
a non-negative seat number. -/
def nonnegDB (db : DB) : Prop :=
  (∀ f ∈ db.flights, 0 ≤ f.seats_available) ∧ ∀ b ∈ db.bookings, 0 ≤ b.num_seats

/-- The operation requests a positive seat count when it is a booking; the
GUI layer (`_book_flight_gui`) establishes this before calling the
engine. -/
def opSeatsOk : Op → Bool
  | Op.book _ _ n => decide (0 < n)
  | Op.cancel _ => true

/-- A one-flight store with 3 free seats, used to drive the engine with the
seat counts it does not validate. -/
def tinyDB : DB :=
  { flights :=
      [{ flight_id := 1, departure := "A", destination := "B",
         flight_date := "2025-01-01", flight_time := "08:00", price := 100,
         seats_available := 3 }],
    bookings := [], next_flight_id := 2, next_booking_id := 1,
    last_insert_rowid := 1, current_date := "2025-01-02" }

/-- A booking row referencing flight 42, which exists in no flight row. -/
def orphanBooking : Booking :=
  { booking_id := 1, flight_id := 42, passenger_name := "P. Ghost",
    num_seats := 2, total_price := 100, booking_date := "2025-07-15" }

/-- A store holding only an orphaned booking: its flight row is absent. -/
def orphanDB : DB :=
  { flights := [], bookings := [orphanBooking],
    next_flight_id := 1, next_booking_id := 2, last_insert_rowid := 1,
    current_date := "2025-07-15" }

/-! ### List-level helper lemmas -/

/-- Looking a flight up after an id-preserving row update finds the updated
version of the row found before. -/
theorem find_map_flight (l : List Flight) (fid : Nat) (h : Flight → Flight)
    (hpres : ∀ x, (h x).flight_id = x.flight_id) :
    (l.map h).find? (fun x => x.flight_id == fid) =
      (l.find? (fun x => x.flight_id == fid)).map h := by
  induction l with
  | nil => rfl
  | cons a l ih =>
    rw [List.map_cons]
    by_cases hc : a.flight_id = fid
    · rw [List.find?_cons_of_pos _ (by simp [hpres, hc]),
        List.find?_cons_of_pos _ (by simp [hc])]
      rfl
    · rw [List.find?_cons_of_neg _ (by simp [hpres, hc]),
        List.find?_cons_of_neg _ (by simp [hc]), ih]

/-- `seatSet` finds the same row as before, with its seats overwritten. -/
theorem find_seatSet (l : List Flight) (fidU fid : Nat) (v : Int) :
    (seatSet l fidU v).find? (fun x => x.flight_id == fid) =
      (l.find? (fun x => x.flight_id == fid)).map
        (fun g => if g.flight_id == fidU then { g with seats_available := v } else g) :=
  find_map_flight l fid _ (fun x => by by_cases hx : x.flight_id == fidU <;> simp [hx])

/-- `seatCredit` finds the same row as before, with its seats credited. -/
theorem find_seatCredit (l : List Flight) (fidU fid : Nat) (n : Int) :
    (seatCredit l fidU n).find? (fun x => x.flight_id == fid) =
      (l.find? (fun x => x.flight_id == fid)).map
        (fun g =>
          if g.flight_id == fidU then { g with seats_available := g.seats_available + n }
          else g) :=
  find_map_flight l fid _ (fun x => by by_cases hx : x.flight_id == fidU <;> simp [hx])

/-- A guarded row update is the identity when no row satisfies the guard. -/
theorem map_guard_id {α : Type} (l : List α) (p : α → Bool) (h : α → α)
    (hnone : ∀ x ∈ l, p x = false) :
    l.map (fun g => if p g then h g else g) = l := by
  induction l with
  | nil => rfl
  | cons a l ih =>
    rw [List.map_cons, hnone a (by simp), if_neg (by simp),
      ih (fun x hx => hnone x (by simp [hx]))]

/-- Crediting seats on a flight id that is present in no row leaves the
table unchanged. -/
theorem seatCredit_of_absent (l : List Flight) (fid : Nat) (n : Int)
    (h : l.find? (fun x => x.flight_id == fid) = none) :
    seatCredit l fid n = l :=
  map_guard_id l _ _ (fun x hx => by
    have := List.find?_eq_none.mp h x hx
    simpa using this)

/-- Deleting a booking id that no row carries leaves the table unchanged. -/
theorem filter_ne_of_absent (l : List Booking) (bid : Nat)
    (h : ∀ x ∈ l, x.booking_id ≠ bid) :
    l.filter (fun x => x.booking_id != bid) = l :=
  List.filter_eq_self.mpr (fun x hx => by simpa using h x hx)

/-- After deleting a booking id, no lookup of that id succeeds. -/
theorem find_filter_ne (l : List Booking) (bid : Nat) :
    (l.filter (fun x => x.booking_id != bid)).find? (fun x => x.booking_id == bid) = none :=
  List.find?_eq_none.mpr (fun x hx => by
    have := (List.mem_filter.mp hx).2
    simpa using this)

/-! ### `bookedSeats` lemmas -/

@[simp] theorem bookedSeats_nil (fid : Nat) : bookedSeats [] fid = 0 := rfl

@[simp] theorem bookedSeats_cons (x : Booking) (l : List Booking) (fid : Nat) :
    bookedSeats (x :: l) fid =
      (if x.flight_id == fid then x.num_seats else 0) + bookedSeats l fid := by
  simp [bookedSeats]

theorem bookedSeats_append (l₁ l₂ : List Booking) (fid : Nat) :
    bookedSeats (l₁ ++ l₂) fid = bookedSeats l₁ fid + bookedSeats l₂ fid := by
  simp [bookedSeats]

/-- Deleting the booking found for an id removes exactly its seats from the
per-flight total, provided booking ids are unique. -/
theorem bookedSeats_delete (l : List Booking) (bid fid : Nat) (b : Booking)
    (hfind : l.find? (fun x => x.booking_id == bid) = some b)
    (hnd : (l.map (fun x => x.booking_id)).Nodup) :
    bookedSeats (l.filter (fun x => x.booking_id != bid)) fid =
      bookedSeats l fid - (if b.flight_id == fid then b.num_seats else 0) := by
  induction l with
  | nil => simp at hfind
  | cons a l ih =>
    rw [List.map_cons, List.nodup_cons] at hnd
    by_cases hc : a.booking_id = bid
    · rw [List.find?_cons_of_pos _ (by simp [hc])] at hfind
      obtain rfl : a = b := by injection hfind
      have hrest : ∀ x ∈ l, x.booking_id ≠ bid := by
        intro x hx hxe
        exact hnd.1 (hc ▸ hxe ▸ List.mem_map_of_mem _ hx)
      rw [List.filter_cons_of_neg (by simp [hc]), filter_ne_of_absent l bid hrest,
        bookedSeats_cons]
      omega
    · rw [List.find?_cons_of_neg _ (by simp [hc])] at hfind
      rw [List.filter_cons_of_pos (by simp [hc]), bookedSeats_cons, bookedSeats_cons,
        ih hfind hnd.2]
      omega

/-! ### Characterization of the engine operations -/

theorem book_flight_not_found (db : DB) (fid : Nat) (name : String) (n : Int)
    (h : findFlight db fid = none) :
    book_flight db fid name n = (db, false, "Flight not found.") := by
  unfold book_flight; rw [h]

theorem book_flight_insufficient (db : DB) (fid : Nat) (name : String) (n : Int)
    (f : Flight) (hf : findFlight db fid = some f) (hn : n > f.seats_available) :
    book_flight db fid name n =
      (db, false,
        "Not enough seats available. Only " ++ toString f.seats_available ++
          " seats left.") := by
  unfold book_flight; rw [hf]; simp [hn]

theorem book_flight_success (db : DB) (fid : Nat) (name : String) (n : Int)
    (f : Flight) (hf : findFlight db fid = some f) (hn : ¬ n > f.seats_available) :
    book_flight db fid name n =
      (bookApply db fid name n f, true, "Flight booked successfully!") := by
  unfold book_flight; rw [hf]; simp [hn]

theorem cancel_booking_not_found (db : DB) (bid : Nat)
    (h : findBooking db bid = none) :
    cancel_booking db bid = (db, false, "Booking not found.") := by
  unfold cancel_booking; rw [h]

theorem cancel_booking_success (db : DB) (bid : Nat) (b : Booking)
    (h : findBooking db bid = some b) :
    cancel_booking db bid =
      (cancelApply db bid b, true, "Booking cancelled successfully!") := by
  unfold cancel_booking; rw [h]

/-! ### Preservation of the conserved seat sum -/

/-- One engine operation preserves booking-id wellformedness and the
conserved seat sum of any one flight. -/
theorem conserved_step (db : DB) (fid : Nat) (total : Int) (op : Op)
    (hb : idsBounded db) (hnd : idsNodup db) (hc : conservedAt db fid total) :
    idsBounded (applyOp db op) ∧ idsNodup (applyOp db op) ∧
      conservedAt (applyOp db op) fid total := by
  obtain ⟨f, hf, hsum⟩ := hc
  have hfidf : f.flight_id = fid := by simpa using List.find?_some hf
  cases op with
  | book fid' name n =>
    cases hff : findFlight db fid' with
    | none =>
      have hres : applyOp db (Op.book fid' name n) = db := by
        simp [applyOp, book_flight_not_found db fid' name n hff]
      rw [hres]
      exact ⟨hb, hnd, f, hf, hsum⟩
    | some f0 =>
      by_cases hn : n > f0.seats_available
      · have hres : applyOp db (Op.book fid' name n) = db := by
          simp [applyOp, book_flight_insufficient db fid' name n f0 hff hn]
        rw [hres]
        exact ⟨hb, hnd, f, hf, hsum⟩
      · have hres : applyOp db (Op.book fid' name n) = bookApply db fid' name n f0 := by
          simp [applyOp, book_flight_success db fid' name n f0 hff hn]
        rw [hres]
        have hfind2 : findFlight (bookApply db fid' name n f0) fid =
            some (if f.flight_id == fid'
              then { f with seats_available := f0.seats_available - n } else f) := by
          have hf2 : List.find? (fun x => x.flight_id == fid) db.flights = some f := hf
          show (seatSet db.flights fid' (f0.seats_available - n)).find?
            (fun x => x.flight_id == fid) = _
          rw [find_seatSet, hf2]
          rfl
        have hbs : bookedSeats (bookApply db fid' name n f0).bookings fid =
            bookedSeats db.bookings fid + (if fid' == fid then n else 0) := by
          show bookedSeats (db.bookings ++ [newBooking db fid' name n f0]) fid = _
          rw [bookedSeats_append, bookedSeats_cons, bookedSeats_nil]
          simp [newBooking]
        refine ⟨?_, ?_, ?_⟩
        · intro b hbm
          rcases List.mem_append.mp hbm with h1 | h1
          · exact Nat.lt_succ_of_lt (hb b h1)
          · rw [List.mem_singleton.mp h1]
            exact Nat.lt_succ_self _
        · show ((db.bookings ++ [newBooking db fid' name n f0]).map
            (fun b => b.booking_id)).Nodup
          rw [List.map_append, List.nodup_append]
          refine ⟨hnd, by simp, ?_⟩
          intro a ha ha2
          obtain ⟨b, hbmem, rfl⟩ := List.mem_map.mp ha
          simp only [List.map_cons, List.map_nil, List.mem_singleton, newBooking] at ha2
          exact absurd (hb b hbmem) (by omega)
        · refine ⟨_, hfind2, ?_⟩
          rw [hbs]
          by_cases heq : fid' = fid
          · have hf0 : f = f0 := by
              rw [heq] at hff
              rw [hf] at hff
              exact Option.some.inj hff
            simp only [hfidf, heq, beq_self_eq_true, if_true]
            simp only [← hf0]
            omega
          · have h1 : (f.flight_id == fid') = false := by simp [hfidf]; omega
            have h2 : (fid' == fid) = false := by simpa using heq
            rw [h1, h2]
            simpa using hsum
  | cancel bid =>
    cases hfb : findBooking db bid with
    | none =>
      have hres : applyOp db (Op.cancel bid) = db := by
        simp [applyOp, cancel_booking_not_found db bid hfb]
      rw [hres]
      exact ⟨hb, hnd, f, hf, hsum⟩
    | some b =>
      have hres : applyOp db (Op.cancel bid) = cancelApply db bid b := by
        simp [applyOp, cancel_booking_success db bid b hfb]
      rw [hres]
      have hfind2 : findFlight (cancelApply db bid b) fid =
          some (if f.flight_id == b.flight_id
            then { f with seats_available := f.seats_available + b.num_seats } else f) := by
        have hf2 : List.find? (fun x => x.flight_id == fid) db.flights = some f := hf
        show (seatCredit db.flights b.flight_id b.num_seats).find?
          (fun x => x.flight_id == fid) = _
        rw [find_seatCredit, hf2]
        rfl
      have hbs : bookedSeats (cancelApply db bid b).bookings fid =
          bookedSeats db.bookings fid - (if b.flight_id == fid then b.num_seats else 0) :=
        bookedSeats_delete db.bookings bid fid b hfb hnd
      refine ⟨?_, ?_, ?_⟩
      · intro x hx
        exact hb x (List.mem_of_mem_filter hx)
      · exact hnd.sublist ((List.filter_sublist _).map _)
      · refine ⟨_, hfind2, ?_⟩
        rw [hbs]
        by_cases heq : b.flight_id = fid
        · have h1 : (f.flight_id == b.flight_id) = true := by simp [hfidf, heq]
          have h2 : (b.flight_id == fid) = true := by simp [heq]
          rw [h1, h2]
          simp only [if_true]
          omega
        · have h1 : (f.flight_id == b.flight_id) = false := by simp [hfidf]; omega
          have h2 : (b.flight_id == fid) = false := by simpa using heq
          rw [h1, h2]
          simpa using hsum

/-- A whole sequence of engine operations preserves the conserved seat sum
of any one flight. -/
theorem conserved_run (db : DB) (fid : Nat) (total : Int) (ops : List Op)
    (hb : idsBounded db) (hnd : idsNodup db) (hc : conservedAt db fid total) :
    conservedAt (applyOps db ops) fid total := by
  induction ops generalizing db with
  | nil => exact hc
  | cons op ops ih =>
    obtain ⟨hb2, hnd2, hc2⟩ := conserved_step db fid total op hb hnd hc
    exact ih (applyOp db op) hb2 hnd2 hc2

/-! ### Preservation of non-negative seat counts under positive bookings -/

/-- One engine operation keeps all seat counts non-negative, provided a
booking operation carries a positive seat count. -/
theorem nonneg_step (db : DB) (op : Op) (h : nonnegDB db) (hop : opSeatsOk op = true) :
    nonnegDB (applyOp db op) := by
  obtain ⟨hfl, hbk⟩ := h
  cases op with
  | book fid' name n =>
    have hnpos : 0 < n := by simpa [opSeatsOk] using hop
    cases hff : findFlight db fid' with
    | none =>
      have hres : applyOp db (Op.book fid' name n) = db := by
        simp [applyOp, book_flight_not_found db fid' name n hff]
      rw [hres]
      exact ⟨hfl, hbk⟩
    | some f0 =>
      by_cases hn : n > f0.seats_available
      · have hres : applyOp db (Op.book fid' name n) = db := by
          simp [applyOp, book_flight_insufficient db fid' name n f0 hff hn]
        rw [hres]
        exact ⟨hfl, hbk⟩
      · have hres : applyOp db (Op.book fid' name n) = bookApply db fid' name n f0 := by
          simp [applyOp, book_flight_success db fid' name n f0 hff hn]
        rw [hres]
        constructor
        · intro x hx
          have hx2 : x ∈ seatSet db.flights fid' (f0.seats_available - n) := hx
          obtain ⟨g, hg, rfl⟩ := List.mem_map.mp hx2
          by_cases hgid : (g.flight_id == fid') = true
          · rw [if_pos hgid]
            simp only []
            omega
          · rw [if_neg (by simpa using hgid)]
            exact hfl g hg
        · intro x hx
          have hx2 : x ∈ db.bookings ++ [newBooking db fid' name n f0] := hx
          rcases List.mem_append.mp hx2 with h1 | h1
          · exact hbk x h1
          · rw [List.mem_singleton.mp h1]
            show 0 ≤ n
            omega
  | cancel bid =>
    cases hfb : findBooking db bid with
    | none =>
      have hres : applyOp db (Op.cancel bid) = db := by
        simp [applyOp, cancel_booking_not_found db bid hfb]
      rw [hres]
      exact ⟨hfl, hbk⟩
    | some b =>
      have hbmem : b ∈ db.bookings := List.mem_of_find?_eq_some hfb
      have hbn : 0 ≤ b.num_seats := hbk b hbmem
      have hres : applyOp db (Op.cancel bid) = cancelApply db bid b := by
        simp [applyOp, cancel_booking_success db bid b hfb]
      rw [hres]
      constructor
      · intro x hx
        have hx2 : x ∈ seatCredit db.flights b.flight_id b.num_seats := hx
        obtain ⟨g, hg, rfl⟩ := List.mem_map.mp hx2
        have hgn : 0 ≤ g.seats_available := hfl g hg
        by_cases hgid : (g.flight_id == b.flight_id) = true
        · rw [if_pos hgid]
          simp only []
          omega
        · rw [if_neg (by simpa using hgid)]
          exact hgn
      · intro x hx
        exact hbk x (List.mem_of_mem_filter hx)

/-- A whole sequence of positive bookings and cancellations keeps all seat
counts non-negative. -/
theorem nonneg_run (db : DB) (ops : List Op) (h : nonnegDB db)
    (hops : ∀ op ∈ ops, opSeatsOk op = true) : nonnegDB (applyOps db ops) := by
  induction ops generalizing db with
  | nil => exact h
  | cons op ops ih =>
    exact ih (applyOp db op) (nonneg_step db op h (hops op (by simp)))
      (fun o ho => hops o (by simp [ho]))

/-! ### LIKE patterns versus substring containment -/

theorem headMatchCI_nil_right (p : List Char) : headMatchCI p [] = p.isEmpty := by
  cases p <;> rfl

/-- A pattern starting with a percent matches the text exactly when its
remainder matches at some suffix. -/
theorem likeMatch_percent (p : List Char) (s : List Char) :
    likeMatch ('%' :: p) s = s.tails.any (fun t => likeMatch p t) := by
  simp [likeMatch]

/-- A wildcard-free pattern followed by a single percent matches exactly
the texts it matches at the head. -/
theorem likeMatch_lit (p : List Char) (hp : ∀ c ∈ p, c ≠ '%' ∧ c ≠ '_')
    (s : List Char) : likeMatch (p ++ ['%']) s = headMatchCI p s := by
  induction p generalizing s with
  | nil =>
    rw [List.nil_append]
    show likeMatch ('%' :: []) s = true
    rw [likeMatch_percent]
    induction s with
    | nil => rfl
    | cons c s ih =>
      simp only [List.tails, List.any_cons] at ih ⊢
      rw [ih]
      simp [likeMatch]
  | cons a p ih =>
    have ha := hp a (by simp)
    cases s with
    | nil =>
      simp [likeMatch, headMatchCI, ha.1]
    | cons c s =>
      have hrest : ∀ c ∈ p, c ≠ '%' ∧ c ≠ '_' := fun x hx => hp x (by simp [hx])
      simp [likeMatch, headMatchCI, ha.1, ha.2, ih hrest]

/-- Substring search is head matching at some suffix. -/
theorem subMatchCI_eq_tails (p s : List Char) :
    subMatchCI p s = s.tails.any (fun t => headMatchCI p t) := by
  induction s with
  | nil =>
    show p.isEmpty = _
    simp [List.tails, headMatchCI_nil_right]
  | cons c s ih =>
    simp only [subMatchCI, List.tails, List.any_cons, ih]

/-- For a filter string free of the LIKE wildcard characters, the
`LIKE '%filter%'` condition is exactly case-insensitive substring
containment. -/
theorem likeMatch_wrap_eq_sub (p : List Char) (hp : ∀ c ∈ p, c ≠ '%' ∧ c ≠ '_')
    (s : List Char) : likeMatch ('%' :: (p ++ ['%'])) s = subMatchCI p s := by
  rw [likeMatch_percent, subMatchCI_eq_tails]
  simp only [likeMatch_lit p hp]

/-- Looking up the id that `last_insert_rowid()` reports right after a
successful booking yields exactly the inserted row, provided all earlier
booking ids are below the AUTOINCREMENT counter. -/
theorem findBooking_after_book (db : DB) (fid : Nat) (name : String) (n : Int)
    (f : Flight) (hb : idsBounded db) :
    findBooking (bookApply db fid name n f) db.next_booking_id =
      some (newBooking db fid name n f) := by
  have h1 : db.bookings.find? (fun x => x.booking_id == db.next_booking_id) = none :=
    List.find?_eq_none.mpr (fun x hx => by
      have := hb x hx
      simp only [beq_iff_eq]
      omega)
  show (db.bookings ++ [newBooking db fid name n f]).find?
    (fun x => x.booking_id == db.next_booking_id) = _
  rw [List.find?_append, h1]
  simp [newBooking]

/-! ### The claims -/

/-- C1: for every flight and every call `Book(flightId, passengerName,
numSeats)`, if `numSeats` is strictly greater than the flight's current
`seatsAvailable` then the call fails, the failure message carries the
actual remaining seat count, and the store — the flight's seats and the
set of bookings alike — is returned unchanged. -/
theorem book_insufficient_fails_unchanged (db : DB) (fid : Nat) (name : String)
    (n : Int) (f : Flight) (hf : findFlight db fid = some f)
    (hn : n > f.seats_available) :
    book_flight db fid name n =
      (db, false,
        "Not enough seats available. Only " ++ toString f.seats_available ++
          " seats left.") :=
  book_flight_insufficient db fid name n f hf hn

theorem book_insufficient_fails_unchanged_witness :
    findFlight seedDB 1 = some seedFlight1 ∧
    (200 : Int) > seedFlight1.seats_available ∧
    book_flight seedDB 1 "B. Ray" 200 =
      (seedDB, false,
        "Not enough seats available. Only " ++ toString seedFlight1.seats_available ++
          " seats left.") :=
  ⟨by decide, by decide,
    book_insufficient_fails_unchanged seedDB 1 "B. Ray" 200 seedFlight1
      (by decide) (by decide)⟩

/-- C2: starting from any store in which the flight `fid` is present with
`init` free seats and no booking yet references it (as when it has just
been created under a fresh id), after any sequence of Book and Cancel
operations the flight's `seatsAvailable` plus the seats of all bookings
referencing it still equal `init`.  Since `ops` ranges over all sequences,
instantiating it with each prefix gives the property at every intermediate
state: no operation leaves a booking without its seat debit or a seat
debit without its booking. -/
theorem seat_conservation (db : DB) (fid : Nat) (init : Int) (f : Flight)
    (ops : List Op) (hf : findFlight db fid = some f)
    (hinit : f.seats_available = init)
    (hfresh : bookedSeats db.bookings fid = 0)
    (hb : ∀ b ∈ db.bookings, b.booking_id < db.next_booking_id)
    (hnd : (db.bookings.map (fun b => b.booking_id)).Nodup) :
    ∃ f2, findFlight (applyOps db ops) fid = some f2 ∧
      f2.seats_available + bookedSeats (applyOps db ops).bookings fid = init :=
  conserved_run db fid init ops hb hnd ⟨f, hf, by omega⟩

theorem seat_conservation_witness :
    findFlight seedDB 1 = some seedFlight1 ∧
    seedFlight1.seats_available = 150 ∧
    bookedSeats seedDB.bookings 1 = 0 ∧
    ∃ f2,
      findFlight (applyOps seedDB
        [Op.book 1 "A. Lee" 2, Op.book 1 "C. Day" 5, Op.cancel 1]) 1 = some f2 ∧
      f2.seats_available + bookedSeats (applyOps seedDB
        [Op.book 1 "A. Lee" 2, Op.book 1 "C. Day" 5, Op.cancel 1]).bookings 1 = 150 :=
  ⟨by decide, by decide, by decide,
    seat_conservation seedDB 1 150 seedFlight1
      [Op.book 1 "A. Lee" 2, Op.book 1 "C. Day" 5, Op.cancel 1]
      (by decide) (by decide) (by decide) (by decide) (by decide)⟩

/-- C3: a successful Book immediately followed by Cancel on the booking id
it produced (the id `last_insert_rowid()` reports, which the GUI hands to
the user) succeeds and restores the flight's `seatsAvailable` to exactly
its pre-Book value. -/
theorem book_cancel_roundtrip (db : DB) (fid : Nat) (name : String) (n : Int)
    (f : Flight) (hf : findFlight db fid = some f)
    (hn : ¬ n > f.seats_available)
    (hb : ∀ b ∈ db.bookings, b.booking_id < db.next_booking_id) :
    (book_flight db fid name n).2.1 = true ∧
    (cancel_booking (book_flight db fid name n).1
        (book_flight db fid name n).1.last_insert_rowid).2 =
      (true, "Booking cancelled successfully!") ∧
    ∃ f2, findFlight (cancel_booking (book_flight db fid name n).1
        (book_flight db fid name n).1.last_insert_rowid).1 fid = some f2 ∧
      f2.seats_available = f.seats_available := by
  have hfidf : f.flight_id = fid := by simpa using List.find?_some hf
  rw [book_flight_success db fid name n f hf hn]
  have hlir : (bookApply db fid name n f, true, "Flight booked successfully!").1.last_insert_rowid
      = db.next_booking_id := rfl
  rw [hlir]
  have hfindb := findBooking_after_book db fid name n f hb
  rw [cancel_booking_success (bookApply db fid name n f) db.next_booking_id
    (newBooking db fid name n f) hfindb]
  refine ⟨rfl, rfl, ?_⟩
  refine ⟨{ f with seats_available := f.seats_available - n + n }, ?_, by simp⟩
  have hf2 : List.find? (fun x => x.flight_id == fid) db.flights = some f := hf
  show (seatCredit (seatSet db.flights fid (f.seats_available - n)) fid n).find?
    (fun x => x.flight_id == fid) = _
  rw [find_seatCredit, find_seatSet, hf2]
  simp [hfidf]

theorem book_cancel_roundtrip_witness :
    findFlight seedDB 1 = some seedFlight1 ∧
    ((book_flight seedDB 1 "A. Lee" 2).2.1 = true ∧
      (cancel_booking (book_flight seedDB 1 "A. Lee" 2).1
          (book_flight seedDB 1 "A. Lee" 2).1.last_insert_rowid).2 =
        (true, "Booking cancelled successfully!") ∧
      ∃ f2, findFlight (cancel_booking (book_flight seedDB 1 "A. Lee" 2).1
          (book_flight seedDB 1 "A. Lee" 2).1.last_insert_rowid).1 1 = some f2 ∧
        f2.seats_available = seedFlight1.seats_available) :=
  ⟨by decide,
    book_cancel_roundtrip seedDB 1 "A. Lee" 2 seedFlight1
      (by decide) (by decide) (by decide)⟩

/-- C4: Cancel on a booking id that does not exist in the store fails with
the not-found message and returns the store unchanged; and after any
successful Cancel the same id is gone, so a second Cancel of it fails the
same way and leaves the store — in particular every flight's seat
count — untouched, never crediting seats twice. -/
theorem cancel_missing_notfound (db : DB) (bid : Nat) :
    (findBooking db bid = none →
      cancel_booking db bid = (db, false, "Booking not found.")) ∧
    ∀ db2 msg, cancel_booking db bid = (db2, true, msg) →
      cancel_booking db2 bid = (db2, false, "Booking not found.") := by
  constructor
  · intro h
    exact cancel_booking_not_found db bid h
  · intro db2 msg h
    cases hfb : findBooking db bid with
    | none =>
      rw [cancel_booking_not_found db bid hfb] at h
      simp at h
    | some b =>
      rw [cancel_booking_success db bid b hfb] at h
      have hdb2 : db2 = cancelApply db bid b := (congrArg Prod.fst h).symm
      subst hdb2
      apply cancel_booking_not_found
      show (db.bookings.filter (fun x => x.booking_id != bid)).find?
        (fun x => x.booking_id == bid) = none
      exact find_filter_ne db.bookings bid

theorem cancel_missing_notfound_witness :
    findBooking seedDB 7 = none ∧
    cancel_booking seedDB 7 = (seedDB, false, "Booking not found.") ∧
    cancel_booking (book_flight seedDB 1 "A. Lee" 2).1 1 =
      ((cancel_booking (book_flight seedDB 1 "A. Lee" 2).1 1).1, true,
        "Booking cancelled successfully!") ∧
    cancel_booking (cancel_booking (book_flight seedDB 1 "A. Lee" 2).1 1).1 1 =
      ((cancel_booking (book_flight seedDB 1 "A. Lee" 2).1 1).1, false,
        "Booking not found.") :=
  ⟨by decide, (cancel_missing_notfound seedDB 7).1 (by decide), by decide,
    (cancel_missing_notfound (book_flight seedDB 1 "A. Lee" 2).1 1).2
      (cancel_booking (book_flight seedDB 1 "A. Lee" 2).1 1).1
      "Booking cancelled successfully!" (by decide)⟩

/-- C5: the booking stored by a successful Book carries
`totalPrice = price * numSeats` computed from the flight's price at the
moment of booking, and any later change to any flight's price (modelled as
an UPDATE of the flight row, `set_price`) leaves that stored booking —
its `totalPrice` included — unchanged. -/
theorem price_snapshot (db : DB) (fid : Nat) (name : String) (n : Int)
    (f : Flight) (hf : findFlight db fid = some f)
    (hn : ¬ n > f.seats_available)
    (hb : ∀ b ∈ db.bookings, b.booking_id < db.next_booking_id) :
    ∃ nb, findBooking (book_flight db fid name n).1
        (book_flight db fid name n).1.last_insert_rowid = some nb ∧
      nb.total_price = f.price * (n : ℚ) ∧
      ∀ fid2 p2, findBooking (set_price (book_flight db fid name n).1 fid2 p2)
        (book_flight db fid name n).1.last_insert_rowid = some nb := by
  rw [book_flight_success db fid name n f hf hn]
  exact ⟨newBooking db fid name n f, findBooking_after_book db fid name n f hb,
    rfl, fun fid2 p2 => findBooking_after_book db fid name n f hb⟩

theorem price_snapshot_witness :
    findFlight seedDB 1 = some seedFlight1 ∧
    ∃ nb, findBooking (book_flight seedDB 1 "A. Lee" 2).1
        (book_flight seedDB 1 "A. Lee" 2).1.last_insert_rowid = some nb ∧
      nb.total_price = seedFlight1.price * ((2 : Int) : ℚ) ∧
      ∀ fid2 p2, findBooking (set_price (book_flight seedDB 1 "A. Lee" 2).1 fid2 p2)
        (book_flight seedDB 1 "A. Lee" 2).1.last_insert_rowid = some nb :=
  ⟨by decide,
    price_snapshot seedDB 1 "A. Lee" 2 seedFlight1 (by decide) (by decide) (by decide)⟩

/-- C6 counterexample: `DatabaseManager.book_flight` performs no input
validation.  Called with `numSeats = 0` and an empty passenger name on an
existing flight with enough seats, it succeeds with the ordinary success
message and records a booking, instead of failing with a validation
error as the claim states. -/
theorem book_validation_counterexample :
    (book_flight seedDB 1 "" 0).2 = (true, "Flight booked successfully!") ∧
    (book_flight seedDB 1 "" 0).1.bookings.length = 1 := by decide

/-- C6 amended: the engine's Book operation performs no validation of
`numSeats > 0` or of a non-empty `passengerName` — that validation lives
in the GUI layer (`_book_flight_gui`) before the engine is called.  A call
with `numSeats ≤ 0` or an empty name proceeds to the seat-availability
check, and when the flight exists with `numSeats ≤ seatsAvailable` it
succeeds and records the booking. -/
theorem book_no_validation (db : DB) (fid : Nat) (name : String) (n : Int)
    (f : Flight) (hf : findFlight db fid = some f)
    (hn : ¬ n > f.seats_available) (_hbad : n ≤ 0 ∨ name = "") :
    book_flight db fid name n =
      (bookApply db fid name n f, true, "Flight booked successfully!") :=
  book_flight_success db fid name n f hf hn

theorem book_no_validation_witness :
    findFlight seedDB 1 = some seedFlight1 ∧
    ¬ (0 : Int) > seedFlight1.seats_available ∧
    ((0 : Int) ≤ 0 ∨ ("" : String) = "") ∧
    book_flight seedDB 1 "" 0 =
      (bookApply seedDB 1 "" 0 seedFlight1, true, "Flight booked successfully!") :=
  ⟨by decide, by decide, Or.inl (by decide),
    book_no_validation seedDB 1 "" 0 seedFlight1 (by decide) (by decide)
      (Or.inl (by decide))⟩

/-- C7 counterexample: because the engine validates nothing (see C6), a
sequence of engine-level Book and Cancel calls starting from a well-formed
store can drive a flight's `seatsAvailable` below zero: on a flight with 3
seats, `Book(-5)` is accepted (−5 > 3 is false) and credits 5 seats while
recording a booking of −5 seats, `Book(8)` then empties the flight, and
cancelling the −5-seat booking leaves −5 seats. -/
theorem seats_negative_counterexample :
    (findFlight (applyOps tinyDB
        [Op.book 1 "p" (-5), Op.book 1 "q" 8, Op.cancel 1]) 1).map
      (fun f => f.seats_available) = some (-5) ∧
    ((applyOps tinyDB [Op.book 1 "p" (-5), Op.book 1 "q" 8, Op.cancel 1]).flights.all
      (fun f => decide (0 ≤ f.seats_available))) = false := by decide

/-- C7 amended: in every state reachable from a store whose flights all
have non-negative seat counts and whose bookings all hold non-negative
seat numbers, by Book and Cancel operations in which every Book requests a
positive seat count (as every call the UI layer makes does), every
flight's `seatsAvailable` stays non-negative. -/
theorem seats_nonneg_of_positive_books (db : DB) (ops : List Op)
    (hfl : ∀ f ∈ db.flights, 0 ≤ f.seats_available)
    (hbk : ∀ b ∈ db.bookings, 0 ≤ b.num_seats)
    (hops : ∀ op ∈ ops, opSeatsOk op = true) :
    ∀ f ∈ (applyOps db ops).flights, 0 ≤ f.seats_available :=
  (nonneg_run db ops ⟨hfl, hbk⟩ hops).1

theorem seats_nonneg_of_positive_books_witness :
    (∀ f ∈ seedDB.flights, 0 ≤ f.seats_available) ∧
    (∀ b ∈ seedDB.bookings, 0 ≤ b.num_seats) ∧
    (∀ op ∈ [Op.book 1 "A. Lee" 2, Op.cancel 1], opSeatsOk op = true) ∧
    ∀ f ∈ (applyOps seedDB [Op.book 1 "A. Lee" 2, Op.cancel 1]).flights,
      0 ≤ f.seats_available :=
  ⟨by decide, by decide, by decide,
    seats_nonneg_of_positive_books seedDB [Op.book 1 "A. Lee" 2, Op.cancel 1]
      (by decide) (by decide) (by decide)⟩

/-- C8 counterexample: cancelling an orphaned booking (first conjunct) is
reported with exactly the same plain success outcome as a normal
cancellation (second conjunct) — `(True, "Booking cancelled
successfully!")` — so no warning distinct from an ordinary success is
surfaced, contrary to the claim that the situation is reported as a
non-fatal warning. -/
theorem cancel_orphan_no_warning_counterexample :
    (cancel_booking orphanDB 1).2 = (true, "Booking cancelled successfully!") ∧
    (cancel_booking (book_flight seedDB 1 "A. Lee" 2).1 1).2 =
      (true, "Booking cancelled successfully!") := by decide

/-- C8 amended: Cancel on a booking whose referenced flight row no longer
exists does not fail: it performs no seat change on any flight (the UPDATE
matches no row, so the flight table is returned as it was), still deletes
the booking record, and reports the ordinary success outcome — the same
message as a normal cancellation, with no warning surfaced. -/
theorem cancel_orphan_plain_success (db : DB) (bid : Nat) (b : Booking)
    (hfb : findBooking db bid = some b)
    (horph : findFlight db b.flight_id = none) :
    cancel_booking db bid =
      ({ db with bookings := db.bookings.filter (fun x => x.booking_id != bid) },
        true, "Booking cancelled successfully!") := by
  rw [cancel_booking_success db bid b hfb]
  have hsc : cancelApply db bid b =
      { db with bookings := db.bookings.filter (fun x => x.booking_id != bid) } := by
    unfold cancelApply
    rw [seatCredit_of_absent db.flights b.flight_id b.num_seats horph]
  rw [hsc]

theorem cancel_orphan_plain_success_witness :
    findBooking orphanDB 1 = some orphanBooking ∧
    findFlight orphanDB orphanBooking.flight_id = none ∧
    cancel_booking orphanDB 1 =
      ({ orphanDB with
          bookings := orphanDB.bookings.filter (fun x => x.booking_id != 1) },
        true, "Booking cancelled successfully!") :=
  ⟨by decide, by decide,
    cancel_orphan_plain_success orphanDB 1 orphanBooking (by decide) (by decide)⟩

/-- C9 counterexample: the filters are fed to SQL LIKE unescaped, so `%`
(and `_`) in a filter act as wildcards, not as literal characters.
Searching for departure `"N%k"` returns the New York flight even though
`"N%k"` is not a case-insensitive substring of `"New York"`, refuting the
claimed substring-containment characterization. -/
theorem search_wildcard_counterexample :
    seedFlight1 ∈ search_flights seedDB "N%k" "" "" ∧
    ciContains seedFlight1.departure "N%k" = false := by decide

/-- C9 amended: each filter is optional (an empty string means absent); a
flight is returned iff, for every supplied filter, its departure
(resp. destination) matches the SQL LIKE pattern `%filter%` — ASCII-case-
insensitively, with `%` and `_` inside the filter acting as wildcards —
and its date equals the given date exactly.  A call with no filters
returns all flights, results appear in insertion (table) order, and for a
filter containing no wildcard character the LIKE condition coincides with
case-insensitive substring containment, as the claim states. -/
theorem search_like_semantics (db : DB) (dep dst dt : String) :
    (∀ f, f ∈ search_flights db dep dst dt ↔
      f ∈ db.flights ∧
        (dep = "" ∨ likeMatch ('%' :: (dep.data ++ ['%'])) f.departure.data = true) ∧
        (dst = "" ∨ likeMatch ('%' :: (dst.data ++ ['%'])) f.destination.data = true) ∧
        (dt = "" ∨ f.flight_date = dt)) ∧
    List.Sublist (search_flights db dep dst dt) db.flights ∧
    search_flights db "" "" "" = db.flights ∧
    ∀ pat hay : String, (∀ c ∈ pat.data, c ≠ '%' ∧ c ≠ '_') →
      likeMatch ('%' :: (pat.data ++ ['%'])) hay.data = ciContains hay pat := by
  refine ⟨?_, List.filter_sublist _, ?_, ?_⟩
  · intro f
    rw [search_flights, List.mem_filter, flightMatches]
    simp [String.isEmpty_iff, and_assoc]
  · rw [search_flights]
    rw [List.filter_eq_self]
    intro a ha
    have he : ("" : String).isEmpty = true := by decide
    simp [flightMatches, he]
  · intro pat hay hp
    rw [likeMatch_wrap_eq_sub pat.data hp hay.data]
    rfl

theorem search_like_semantics_witness :
    (∀ c ∈ "new".data, c ≠ '%' ∧ c ≠ '_') ∧
    likeMatch ('%' :: ("new".data ++ ['%'])) "New York".data =
      ciContains "New York" "new" ∧
    search_flights seedDB "" "" "" = seedDB.flights :=
  ⟨by decide,
    (search_like_semantics seedDB "" "" "").2.2.2 "new" "New York" (by decide),
    (search_like_semantics seedDB "" "" "").2.2.1⟩

/-- C10: for a booking id present in the store whose referenced flight row
is absent, `get_booking` returns no row — the booking-with-flight join
produces nothing — even though the booking record itself is present. -/
theorem get_booking_orphan_none (db : DB) (bid : Nat) (b : Booking)
    (hfb : findBooking db bid = some b)
    (horph : findFlight db b.flight_id = none) :
    get_booking db bid = none := by
  simp [get_booking, hfb, horph]

theorem get_booking_orphan_none_witness :
    findBooking orphanDB 1 = some orphanBooking ∧
    findFlight orphanDB orphanBooking.flight_id = none ∧
    get_booking orphanDB 1 = none :=
  ⟨by decide, by decide,
    get_booking_orphan_none orphanDB 1 orphanBooking (by decide) (by decide)⟩

end Airline
